import Mathlib

/-!
Shallow embedding of the ETL pipeline in `src/main_base_to_packed.py`:
CSV merge (`pd.concat`), facility filter, positional column projection,
key counting (`value_counts`), group-wise first aggregation (`groupby.agg`),
join, column reorder, and the batched Google-Sheets publisher.

Cells are `Option String`: `none` models a missing value (pandas `NaN`),
`some s` a present value.
-/

namespace PackedSP5

/-- A cell of a table: `none` is pandas `NaN`, `some s` a present value. -/
abbrev Cell := Option String

/-- A pandas DataFrame: named columns and rows of cells (row-major). -/
structure DataFrame where
  cols : List String
  rows : List (List Cell)
deriving Repr, DecidableEq

/-- Union of column names in order of first appearance, as `pd.concat`
aligns frames by column name (first frame's columns first). -/
def addCols (acc : List String) (cs : List String) : List String :=
  cs.foldl (fun a c => if a.contains c then a else a ++ [c]) acc

/-- Columns of `pd.concat dfs`: fold `addCols` over the frames. -/
def unionCols (dfs : List DataFrame) : List String :=
  dfs.foldl (fun a df => addCols a df.cols) []

/-- Re-express a row of a frame with columns `oldCols` under the concatenated
column list `newCols`; columns absent from the source frame become `NaN`. -/
def reindexRow (oldCols newCols : List String) (r : List Cell) : List Cell :=
  newCols.map (fun c =>
    match oldCols.indexOf? c with
    | some i => r.getD i none
    | none => none)

/-- `pd.concat(all_dfs, ignore_index=True)` (line 52): align all frames on
the union of their column names and stack their rows in file order. -/
def concatTables (dfs : List DataFrame) : DataFrame :=
  let cs := unionCols dfs
  { cols := cs
    rows := dfs.flatMap (fun df => df.rows.map (reindexRow df.cols cs)) }

/-- The fixed facility-code column index (line 60: `df_final.iloc[:, 12]`). -/
def facilityCol : Nat := 12

/-- The hardcoded facility filter value (line 60). -/
def facility : String := "SoC_SP_Cravinhos"

/-- Lines 59-61: keep only rows whose cell at index 12 equals `fac`
(`NaN == fac` is false in pandas, so `NaN` rows are dropped);
an empty frame is passed through untouched. -/
def filterTable (df : DataFrame) (fac : String) : DataFrame :=
  if df.rows.isEmpty then df
  else { df with rows := df.rows.filter (fun r => r.getD facilityCol none = some fac) }

/-- Line 65: `colunas_desejadas = [0, 9, 15, 17, 2, 23]`. -/
def colunasDesejadas : List Nat := [0, 9, 15, 17, 2, 23]

/-- Lines 66-69: `df_final.iloc[:, colunas_desejadas]` on one row, with the
six positions renamed to Chave, Coluna9, Coluna15, Coluna17, Coluna2, Coluna23
(in that order). -/
def projectRow (r : List Cell) : List Cell :=
  colunasDesejadas.map (fun i => r.getD i none)

/-- The Chave (key) cell of a projected row: position 0 of the projection. -/
def keyOf (r : List Cell) : Cell := r.getD 0 none

/-- The non-missing key values of the projected rows, in row order.
Both `value_counts` (line 72) and `groupby` (line 76) drop `NaN` keys. -/
def keysOf (rows : List (List Cell)) : List String :=
  rows.filterMap keyOf

/-- The projected rows whose Chave equals `k` (a group of `groupby` on Chave). -/
def rowsWithKey (rows : List (List Cell)) (k : String) : List (List Cell) :=
  rows.filter (fun r => keyOf r = some k)

/-- `GroupBy.agg` with aggregator `first` on column `j`: the first non-missing value of that
column within the group, or `NaN` when every value is missing. -/
def firstNonNull (rows : List (List Cell)) (j : Nat) : Cell :=
  (rows.filterMap (fun r => r.getD j none)).head?

/-- One row of the final `resultado` frame (lines 85-88), fields in the final
column order: Chave, Coluna9, Coluna15, Coluna17, Quantidade, Coluna2, Coluna23.
In the projected 6-cell rows, Coluna9/15/17/2/23 sit at positions 1,2,3,4,5. -/
structure AggRecord where
  chave : String
  coluna9 : Cell
  coluna15 : Cell
  coluna17 : Cell
  quantidade : Nat
  coluna2 : Cell
  coluna23 : Cell
deriving Repr, DecidableEq

/-- The aggregated record of key `k` over the projected rows: the group-wise
first non-missing attribute values (lines 76-82) merged with the
`value_counts` occurrence count (lines 72-73, 85). -/
def aggRecordFor (rows : List (List Cell)) (k : String) : AggRecord :=
  let g := rowsWithKey rows k
  { chave := k
    coluna9 := firstNonNull g 1
    coluna15 := firstNonNull g 2
    coluna17 := firstNonNull g 3
    quantidade := (keysOf rows).count k
    coluna2 := firstNonNull g 4
    coluna23 := firstNonNull g 5 }

/-- Lines 72-88 applied to the projected rows: `groupby` sorts the distinct
non-missing keys ascending, the inner merge with the counts preserves that
order, and each key yields exactly one aggregated record. -/
def transformRows (projRows : List (List Cell)) : List AggRecord :=
  (List.insertionSort (fun a b : String => a ≤ b) (keysOf projRows).dedup).map
    (aggRecordFor projRows)

/-- Line 88: the fixed final column order of `resultado`. -/
def resultCols : List String :=
  ["Chave", "Coluna9", "Coluna15", "Coluna17", "Quantidade", "Coluna2", "Coluna23"]

/-- The final reporting table returned by `unzip_and_process_data`. -/
structure ResultTable where
  cols : List String
  rows : List AggRecord
deriving Repr, DecidableEq

/-- Lines 43-99 of `unzip_and_process_data`, from the list of CSV frames on:
no CSVs → `None` (line 48); `pd.concat`; the facility filter (applied only to a
non-empty frame, and raising `IndexError` — caught at line 97, `None` — when the
frame has no column 12); the positional projection (raising `IndexError` —
caught, `None` — when an index in `colunas_desejadas` is out of range);
count, group, merge, reorder. -/
def processData (dfs : List DataFrame) : Option ResultTable :=
  if dfs.isEmpty then none
  else
    let merged := concatTables dfs
    if merged.rows.isEmpty ∨ facilityCol < merged.cols.length then
      let filtered := filterTable merged facility
      if colunasDesejadas.all (fun i => i < merged.cols.length) then
        some { cols := resultCols, rows := transformRows (filtered.rows.map projectRow) }
      else none
    else none

/-- Line 123, `fillna` with the empty string: a missing cell is sent as the empty string. -/
def Cell.toStr : Cell → String
  | none => ""
  | some s => s

/-- Line 124 (`df_to_upload.values.tolist()`) on one aggregated record:
the seven cells in final column order, missing values as `""`,
the quantity rendered as a number. -/
def AggRecord.toRow (a : AggRecord) : List String :=
  [a.chave, Cell.toStr a.coluna9, Cell.toStr a.coluna15, Cell.toStr a.coluna17,
   toString a.quantidade, Cell.toStr a.coluna2, Cell.toStr a.coluna23]

/-- One observable call made to the Google-Sheets sink. -/
inductive SinkEvent where
  | clear
  | header (cols : List String)
  | appendRows (rows : List (List String)) (valueInputOption : String)
  | sleep (seconds : Nat)
deriving Repr, DecidableEq

/-- The slices `dados_lista[i:i+chunk_size]` for `i in range(0, len, chunk_size)`
(line 131): Python `range(0, n, B)` enumerates the `(n + B - 1) / B` start
offsets `0, B, 2B, ...` (for `0 < B`), and each slice takes up to `B` rows
from its offset. -/
def chunkList (B : Nat) (l : List α) : List (List α) :=
  (List.range ((l.length + B - 1) / B)).map (fun j => (l.drop (j * B)).take B)

/-- Line 126: `chunk_size = 5000`. -/
def chunk_size : Nat := 5000

/-- The two sink calls issued per chunk of the upload loop (lines 131-135):
`append_rows` with `value_input_option` equal to USER_ENTERED then `time.sleep(2)`. -/
def batchPayload (c : List (List String)) : List SinkEvent :=
  [SinkEvent.appendRows c "USER_ENTERED", SinkEvent.sleep 2]

/-- Lines 101-138 of `update_google_sheet_with_dataframe`, as the trace of
sink calls it issues, with the batch size a parameter: `None` or an empty
frame returns before any call (lines 103-105); otherwise `clear()` (117),
one header call (120), then per chunk one `append_rows` with
`value_input_option` USER_ENTERED (133) followed by `time.sleep(2)` (135). -/
def updateGoogleSheetWith (B : Nat) (rt : Option ResultTable) : List SinkEvent :=
  match rt with
  | none => []
  | some t =>
    if t.rows.isEmpty then []
    else
      SinkEvent.clear :: SinkEvent.header t.cols ::
        (chunkList B (t.rows.map AggRecord.toRow)).flatMap batchPayload

/-- `update_google_sheet_with_dataframe` with the hardcoded chunk size. -/
def update_google_sheet_with_dataframe (rt : Option ResultTable) : List SinkEvent :=
  updateGoogleSheetWith chunk_size rt

/-- Whether a sink event is the header-row call. -/
def SinkEvent.isHeader : SinkEvent → Bool
  | SinkEvent.header _ => true
  | _ => false

/-- Whether a sink event is an `append_rows` batch call. -/
def SinkEvent.isAppend : SinkEvent → Bool
  | SinkEvent.appendRows _ _ => true
  | _ => false

/-- The row batches carried by the `append_rows` calls of a trace, in order. -/
def batchesOf (evs : List SinkEvent) : List (List (List String)) :=
  evs.filterMap (fun e =>
    match e with
    | SinkEvent.appendRows rs _ => some rs
    | _ => none)

/-- Every `append_rows` call in the trace is immediately followed by a
pacing `sleep` call. -/
def pacedOk : List SinkEvent → Bool
  | [] => true
  | SinkEvent.appendRows _ _ :: rest =>
    match rest with
    | SinkEvent.sleep _ :: _ => pacedOk rest
    | _ => false
  | _ :: rest => pacedOk rest

/-! Lemmas about the chunked upload loop. -/

theorem chunkList_length {α : Type} (B : Nat) (l : List α) :
    (chunkList B l).length = (l.length + B - 1) / B := by
  simp [chunkList]

theorem chunkList_flatten_aux {α : Type} (B : Nat) (l : List α) (K : Nat) :
    ((List.range K).map (fun j => (l.drop (j * B)).take B)).flatten = l.take (K * B) := by
  induction K with
  | zero => simp
  | succ K ih =>
    rw [List.range_succ, List.map_append, List.flatten_append]
    simp only [List.map_cons, List.map_nil, List.flatten_cons, List.flatten_nil,
      List.append_nil]
    rw [ih, Nat.succ_mul, List.take_add]

theorem ceil_div_mul_ge (n B : Nat) (hB : 0 < B) : n ≤ ((n + B - 1) / B) * B := by
  have h := Nat.div_add_mod (n + B - 1) B
  have hr : (n + B - 1) % B < B := Nat.mod_lt _ hB
  rw [Nat.mul_comm]
  generalize hq : B * ((n + B - 1) / B) = x at h ⊢
  omega

theorem chunkList_flatten {α : Type} (B : Nat) (hB : 0 < B) (l : List α) :
    (chunkList B l).flatten = l := by
  unfold chunkList
  rw [chunkList_flatten_aux]
  exact List.take_of_length_le (ceil_div_mul_ge l.length B hB)

/-! Lemmas about the shapes of sink traces. -/

theorem batchesOf_payload (cs : List (List (List String))) :
    batchesOf (cs.flatMap batchPayload) = cs := by
  induction cs with
  | nil => rfl
  | cons c cs ih =>
    simp only [List.flatMap_cons, batchPayload, batchesOf, List.filterMap_append] at *
    simp [ih]

theorem countP_isAppend_payload (cs : List (List (List String))) :
    (cs.flatMap batchPayload).countP (fun e => e.isAppend) = cs.length := by
  induction cs with
  | nil => rfl
  | cons c cs ih =>
    have h1 : (batchPayload c).countP (fun e => e.isAppend) = 1 := rfl
    rw [List.flatMap_cons, List.countP_append, ih, h1, List.length_cons]
    omega

theorem countP_isHeader_payload (cs : List (List (List String))) :
    (cs.flatMap batchPayload).countP (fun e => e.isHeader) = 0 := by
  induction cs with
  | nil => rfl
  | cons c cs ih =>
    have h0 : (batchPayload c).countP (fun e => e.isHeader) = 0 := rfl
    rw [List.flatMap_cons, List.countP_append, ih, h0]

theorem pacedOk_payload (cs : List (List (List String))) :
    pacedOk (cs.flatMap batchPayload) = true := by
  induction cs with
  | nil => rfl
  | cons c cs ih =>
    simp only [List.flatMap_cons, batchPayload, List.cons_append, List.nil_append]
    cases cs with
    | nil => rfl
    | cons c2 cs2 =>
      simp only [List.flatMap_cons, batchPayload, List.cons_append] at ih ⊢
      exact ih

/-- The number of `append_rows` calls in a trace that use value-input
option `o`. -/
def appendsWithOption (o : String) (evs : List SinkEvent) : Nat :=
  evs.countP (fun e =>
    match e with
    | SinkEvent.appendRows _ o2 => o2 == o
    | _ => false)

theorem appendsWithOption_payload (cs : List (List (List String))) :
    appendsWithOption "USER_ENTERED" (cs.flatMap batchPayload) = cs.length := by
  induction cs with
  | nil => rfl
  | cons c cs ih =>
    unfold appendsWithOption at ih ⊢
    have h1 : (batchPayload c).countP (fun e =>
        match e with
        | SinkEvent.appendRows _ o2 => o2 == "USER_ENTERED"
        | _ => false) = 1 := rfl
    rw [List.flatMap_cons, List.countP_append, ih, h1, List.length_cons]
    omega

theorem updateGoogleSheetWith_eq (B : Nat) (t : ResultTable) (ht : t.rows ≠ []) :
    updateGoogleSheetWith B (some t) =
      SinkEvent.clear :: SinkEvent.header t.cols ::
        (chunkList B (t.rows.map AggRecord.toRow)).flatMap batchPayload := by
  have h : t.rows.isEmpty = false := by
    cases hr : t.rows with
    | nil => exact absurd hr ht
    | cons a l => rfl
  simp [updateGoogleSheetWith, h]

/-! Lemmas about the key-wise aggregation. -/

theorem map_chave_transformRows (p : List (List Cell)) :
    (transformRows p).map (fun a => a.chave)
      = List.insertionSort (fun a b : String => a ≤ b) (keysOf p).dedup := by
  unfold transformRows
  rw [List.map_map]
  have h : ((fun a : AggRecord => a.chave) ∘ aggRecordFor p) = id := by
    funext k; rfl
  rw [h, List.map_id]

theorem chave_perm_dedup (p : List (List Cell)) :
    ((transformRows p).map (fun a => a.chave)).Perm (keysOf p).dedup := by
  rw [map_chave_transformRows]
  exact List.perm_insertionSort _ _

theorem mem_transformRows (p : List (List Cell)) (a : AggRecord) :
    a ∈ transformRows p ↔ ∃ k ∈ (keysOf p).dedup, aggRecordFor p k = a := by
  unfold transformRows
  rw [List.mem_map]
  constructor
  · rintro ⟨k, hk, rfl⟩
    exact ⟨k, (List.perm_insertionSort _ _).mem_iff.mp hk, rfl⟩
  · rintro ⟨k, hk, rfl⟩
    exact ⟨k, (List.perm_insertionSort _ _).mem_iff.mpr hk, rfl⟩

theorem sum_quantities (p : List (List Cell)) :
    ((transformRows p).map (fun a => a.quantidade)).sum = (keysOf p).length := by
  unfold transformRows
  rw [List.map_map]
  have h : ((fun a : AggRecord => a.quantidade) ∘ aggRecordFor p)
      = fun k => (keysOf p).count k := by
    funext k; rfl
  rw [h]
  have hperm := (List.perm_insertionSort (fun a b : String => a ≤ b)
      (keysOf p).dedup).map (fun k => (keysOf p).count k)
  rw [hperm.sum_eq]
  exact List.sum_map_count_dedup_eq_length _

theorem quantidade_pos (p : List (List Cell)) (a : AggRecord)
    (ha : a ∈ transformRows p) : 1 ≤ a.quantidade := by
  obtain ⟨k, hk, rfl⟩ := (mem_transformRows p a).mp ha
  exact List.count_pos_iff.mpr (List.mem_dedup.mp hk)

theorem keysOf_filter_isSome (p : List (List Cell)) :
    keysOf (p.filter (fun r => (keyOf r).isSome)) = keysOf p := by
  induction p with
  | nil => rfl
  | cons r p ih =>
    cases h : keyOf r with
    | none =>
      simp only [keysOf, List.filter_cons, h, Option.isSome_none, List.filterMap_cons]
      simpa [keysOf, h] using ih
    | some k =>
      simp only [keysOf, List.filter_cons, h, Option.isSome_some, List.filterMap_cons]
      simpa [keysOf, h] using ih

theorem rowsWithKey_filter_isSome (p : List (List Cell)) (k : String) :
    rowsWithKey (p.filter (fun r => (keyOf r).isSome)) k = rowsWithKey p k := by
  unfold rowsWithKey
  rw [List.filter_filter]
  apply List.filter_congr
  intro r _
  by_cases h : keyOf r = some k
  · simp [h]
  · simp [h]

theorem keysOf_length (p : List (List Cell)) :
    (keysOf p).length = (p.filter (fun r => (keyOf r).isSome)).length := by
  induction p with
  | nil => rfl
  | cons r p ih =>
    cases h : keyOf r with
    | none => simpa [keysOf, List.filterMap_cons, List.filter_cons, h] using ih
    | some k => simpa [keysOf, List.filterMap_cons, List.filter_cons, h] using ih

theorem transformRows_filter_isSome (p : List (List Cell)) :
    transformRows (p.filter (fun r => (keyOf r).isSome)) = transformRows p := by
  unfold transformRows
  rw [keysOf_filter_isSome]
  apply List.map_congr_left
  intro k _
  simp only [aggRecordFor]
  rw [keysOf_filter_isSome, rowsWithKey_filter_isSome]

/-- A 24-column single-row frame whose row is at the configured facility;
concrete input for witnesses. -/
def df24 : DataFrame :=
  { cols := ["C0", "C1", "C2", "C3", "C4", "C5", "C6", "C7", "C8", "C9", "C10", "C11", "C12", "C13", "C14", "C15", "C16", "C17", "C18", "C19", "C20", "C21", "C22", "C23"],
    rows := [[some "K1", some "V1", some "V2", some "V3", some "V4", some "V5", some "V6", some "V7", some "V8", some "V9", some "V10", some "V11", some "SoC_SP_Cravinhos", some "V13", some "V14", some "V15", some "V16", some "V17", some "V18", some "V19", some "V20", some "V21", some "V22", some "V23"]] }

/-- Like `df24` but with the facility cell set to a non-matching value. -/
def df24other : DataFrame :=
  { cols := ["C0", "C1", "C2", "C3", "C4", "C5", "C6", "C7", "C8", "C9", "C10", "C11", "C12", "C13", "C14", "C15", "C16", "C17", "C18", "C19", "C20", "C21", "C22", "C23"],
    rows := [[some "K1", some "V1", some "V2", some "V3", some "V4", some "V5", some "V6", some "V7", some "V8", some "V9", some "V10", some "V11", some "Other", some "V13", some "V14", some "V15", some "V16", some "V17", some "V18", some "V19", some "V20", some "V21", some "V22", some "V23"]] }

/-- A 13-column single-row frame: column 12 exists (the filter succeeds) but
the projection indices 15, 17 and 23 are out of range. -/
def df13 : DataFrame :=
  { cols := ["C0", "C1", "C2", "C3", "C4", "C5", "C6", "C7", "C8", "C9", "C10", "C11", "C12"],
    rows := [[some "K1", some "V1", some "V2", some "V3", some "V4", some "V5", some "V6", some "V7", some "V8", some "V9", some "V10", some "V11", some "SoC_SP_Cravinhos"]] }

/-- The transform output of `df24` (checked by `decide` in the witnesses). -/
def rt24 : ResultTable :=
  { cols := resultCols,
    rows := [{ chave := "K1", coluna9 := some "V9", coluna15 := some "V15",
               coluna17 := some "V17", quantidade := 1, coluna2 := some "V2",
               coluna23 := some "V23" }] }

/-- A one-column frame (for the mixed-schema merge counterexample). -/
def dfA : DataFrame := { cols := ["A"], rows := [[some "1"]] }

/-- A two-column frame (for the mixed-schema merge counterexample). -/
def dfAB : DataFrame := { cols := ["A", "B"], rows := [[some "2", some "3"]] }

/-- A single projected record with key K1 (witness input). -/
def pW : List (List Cell) := [[some "K1", some "a", none, none, none, none]]

/-- First projected record of the first-wins counterexample: key K,
Coluna9 missing. -/
def r1C2 : List Cell := [some "K", none, none, none, none, none]

/-- Second projected record of the first-wins counterexample: key K,
Coluna9 present. -/
def r2C2 : List Cell := [some "K", some "a", none, none, none, none]

/-- An aggregated record with key `k` (builder for publisher witnesses). -/
def aggW (k : String) : AggRecord :=
  { chave := k, coluna9 := some "a", coluna15 := none, coluna17 := none,
    quantidade := 1, coluna2 := none, coluna23 := none }

/-- A three-record final table (publisher witness input). -/
def tW : ResultTable := { cols := resultCols, rows := [aggW "K1", aggW "K2", aggW "K3"] }

/-- A one-record final table (publisher counterexample input). -/
def tOne : ResultTable := { cols := resultCols, rows := [aggW "K1"] }

/-! ## Claims -/

/-- C1 (amended): for every projected record set, the aggregation yields
exactly one aggregated record per distinct non-missing Key value, every
Quantity is at least 1, and the sum of the Quantities equals the number of
projected records whose Key is present (a record with a missing Key is
dropped by both the counting and the grouping step, so it is not counted). -/
theorem C1_key_uniqueness (p : List (List Cell)) :
    ((transformRows p).map (fun a => a.chave)).Nodup ∧
    (∀ k : String, k ∈ keysOf p ↔ k ∈ (transformRows p).map (fun a => a.chave)) ∧
    (∀ a ∈ transformRows p, 1 ≤ a.quantidade) ∧
    ((transformRows p).map (fun a => a.quantidade)).sum
      = (p.filter (fun r => (keyOf r).isSome)).length := by
  refine ⟨((chave_perm_dedup p).nodup_iff).mpr (List.nodup_dedup _), ?_, ?_, ?_⟩
  · intro k
    rw [(chave_perm_dedup p).mem_iff, List.mem_dedup]
  · exact fun a ha => quantidade_pos p a ha
  · rw [sum_quantities, keysOf_length]

/-- Witness for C1 at a concrete one-record input. -/
theorem C1_key_uniqueness_witness :
    1 ≤ (aggRecordFor pW "K1").quantidade :=
  (C1_key_uniqueness pW).2.2.1 (aggRecordFor pW "K1") (by decide)

/-- C1 as literally stated is false: a single projected record whose Key cell
is missing produces zero aggregated records, so the sum of Quantities (0) is
not the number of projected records (1). -/
theorem C1_counterexample :
    ¬ (((transformRows [[none, some "a", none, none, none, none]]).map
          (fun a => a.quantidade)).sum
        = ([[(none : Cell), some "a", none, none, none, none]] :
            List (List Cell)).length) := by
  decide

/-- C2 (amended): for each attribute column independently, the aggregated
record of a key carries the first non-missing value of that column among the
records of that key in projection order (so whenever the first record of the
key has a present value in a column, that value wins); the transform is a
pure function of the projected rows, hence re-running it is deterministic. -/
theorem C2_first_nonnull (p : List (List Cell)) (a : AggRecord)
    (ha : a ∈ transformRows p) :
    a.coluna9 = firstNonNull (rowsWithKey p a.chave) 1 ∧
    a.coluna15 = firstNonNull (rowsWithKey p a.chave) 2 ∧
    a.coluna17 = firstNonNull (rowsWithKey p a.chave) 3 ∧
    a.coluna2 = firstNonNull (rowsWithKey p a.chave) 4 ∧
    a.coluna23 = firstNonNull (rowsWithKey p a.chave) 5 := by
  obtain ⟨k, _hk, rfl⟩ := (mem_transformRows p a).mp ha
  exact ⟨rfl, rfl, rfl, rfl, rfl⟩

/-- Witness for C2 at a concrete one-record input. -/
theorem C2_first_nonnull_witness :
    (aggRecordFor pW "K1").coluna9
      = firstNonNull (rowsWithKey pW (aggRecordFor pW "K1").chave) 1 :=
  (C2_first_nonnull pW (aggRecordFor pW "K1") (by decide)).1

/-- C2 as literally stated is false: with two records of key K whose Coluna9
differ (`NaN` first, then "a"), the aggregated Coluna9 is "a" — the first
non-missing value — and not the missing value carried by the record that
appears first in projection order. -/
theorem C2_counterexample :
    (transformRows [r1C2, r2C2]).map (fun a => a.coluna9) ≠ [r1C2.getD 1 none] := by
  decide

/-- C3 (amended): the merge never fails. For every list of part-files — equal
column counts or not — it returns a table whose row count is the sum of the
input row counts; frames are aligned on the union of their column names with
missing entries `NaN`, so no `SchemaMismatch` failure exists. -/
theorem C3_merge_row_count (dfs : List DataFrame) :
    (concatTables dfs).rows.length = (dfs.map (fun df => df.rows.length)).sum := by
  simp [concatTables, List.length_flatMap, Function.comp_def]

/-- C3 as literally stated is false: two part-files with different column
counts (1 and 2) are merged without any failure, into a 2-row table aligned
by column name with a `NaN` hole. -/
theorem C3_counterexample :
    dfA.cols.length ≠ dfAB.cols.length ∧
    concatTables [dfA, dfAB]
      = { cols := ["A", "B"],
          rows := [[some "1", none], [some "2", some "3"]] } := by
  decide

/-- C4: every table the transform emits carries its columns in exactly the
fixed order Chave, Coluna9, Coluna15, Coluna17, Quantidade, Coluna2, Coluna23
(the count interposed between the third and fourth attribute), for any input
frames whatsoever. -/
theorem C4_column_order (dfs : List DataFrame) (rt : ResultTable)
    (h : processData dfs = some rt) (_hne : rt.rows ≠ []) :
    rt.cols = resultCols := by
  unfold processData at h
  split at h
  · exact absurd h (by simp)
  · dsimp only at h
    split at h
    · split at h
      · rw [Option.some.injEq] at h
        rw [← h]
      · exact absurd h (by simp)
    · exact absurd h (by simp)

/-- Witness for C4 at a concrete 24-column input frame. -/
theorem C4_column_order_witness : rt24.cols = resultCols :=
  C4_column_order [df24] rt24 (by decide) (by decide)

/-- C5: for every non-empty final table of N records and every positive batch
size B, the publisher issues the header-row call right after the clear and
before any batch, exactly one header-row call in total, exactly ⌈N/B⌉ batch
calls, whose rows concatenate — in table order — to the serialized table (so
their row counts sum to N), and a pacing sleep follows every batch call. -/
theorem C5_batching (B : Nat) (t : ResultTable) (hB : 0 < B) (ht : t.rows ≠ []) :
    (updateGoogleSheetWith B (some t)).take 2
        = [SinkEvent.clear, SinkEvent.header t.cols] ∧
    (updateGoogleSheetWith B (some t)).countP (fun e => e.isHeader) = 1 ∧
    (updateGoogleSheetWith B (some t)).countP (fun e => e.isAppend)
        = (t.rows.length + B - 1) / B ∧
    (batchesOf (updateGoogleSheetWith B (some t))).flatten
        = t.rows.map AggRecord.toRow ∧
    ((batchesOf (updateGoogleSheetWith B (some t))).map
        (fun c => c.length)).sum = t.rows.length ∧
    pacedOk (updateGoogleSheetWith B (some t)) = true := by
  rw [updateGoogleSheetWith_eq B t ht]
  have hbatches : batchesOf (SinkEvent.clear :: SinkEvent.header t.cols ::
      (chunkList B (t.rows.map AggRecord.toRow)).flatMap batchPayload)
        = chunkList B (t.rows.map AggRecord.toRow) :=
    batchesOf_payload _
  refine ⟨rfl, ?_, ?_, ?_, ?_, ?_⟩
  · have h0 := countP_isHeader_payload (chunkList B (t.rows.map AggRecord.toRow))
    rw [List.countP_cons, List.countP_cons, h0]
    rfl
  · have h0 := countP_isAppend_payload (chunkList B (t.rows.map AggRecord.toRow))
    rw [List.countP_cons, List.countP_cons, h0, chunkList_length, List.length_map]
    rfl
  · rw [hbatches, chunkList_flatten B hB]
  · rw [hbatches]
    have := List.length_flatten (chunkList B (t.rows.map AggRecord.toRow))
    rw [chunkList_flatten B hB] at this
    rw [List.length_map] at this
    simpa using this.symm
  · exact pacedOk_payload _

/-- Witness for C5: three records, batch size two, gives two batch calls. -/
theorem C5_batching_witness :
    (updateGoogleSheetWith 2 (some tW)).countP (fun e => e.isAppend)
      = (tW.rows.length + 2 - 1) / 2 :=
  (C5_batching 2 tW (by decide) (by decide)).2.2.1

/-- C6 (amended): every `append_rows` call of every publisher trace uses the
value-input option USER_ENTERED — the sink parses the values as if a user had
typed them (formulas would be evaluated), not as literal values. -/
theorem C6_value_input_option (B : Nat) (rt : Option ResultTable) :
    appendsWithOption "USER_ENTERED" (updateGoogleSheetWith B rt)
      = (updateGoogleSheetWith B rt).countP (fun e => e.isAppend) := by
  match rt with
  | none => rfl
  | some t =>
    by_cases ht : t.rows = []
    · simp [updateGoogleSheetWith, ht, appendsWithOption]
    · rw [updateGoogleSheetWith_eq B t ht]
      show appendsWithOption "USER_ENTERED"
          ((chunkList B (t.rows.map AggRecord.toRow)).flatMap batchPayload)
        = List.countP (fun e => e.isAppend)
          ((chunkList B (t.rows.map AggRecord.toRow)).flatMap batchPayload)
      rw [appendsWithOption_payload, countP_isAppend_payload]

/-- C6 as literally stated is false: publishing a concrete one-record table
issues one `append_rows` call, and none of the calls uses the literal
value-input option (RAW) — the call uses USER_ENTERED instead. -/
theorem C6_counterexample :
    appendsWithOption "RAW" (update_google_sheet_with_dataframe (some tOne)) = 0 ∧
    (update_google_sheet_with_dataframe (some tOne)).countP
        (fun e => e.isAppend) = 1 := by
  decide

/-- C7 (amended): a projection index that is out of range for the merged
table makes the transform return an absent result (the raised error is caught
inside `unzip_and_process_data`), and the pipeline then continues and skips
publishing — the outcome is observably identical to an empty result, with no
distinct failed state and no typed `ColumnIndexOutOfRange` error. -/
theorem C7_out_of_range_is_soft (dfs : List DataFrame)
    (h : (colunasDesejadas.all
        (fun i => decide (i < (concatTables dfs).cols.length))) = false) :
    processData dfs = none ∧
    ∀ B : Nat, updateGoogleSheetWith B (processData dfs) = [] := by
  have hp : processData dfs = none := by
    unfold processData
    split
    · rfl
    · dsimp only
      split
      · rw [if_neg]
        simp [h]
      · rfl
  exact ⟨hp, fun B => by rw [hp]; rfl⟩

/-- Witness for C7 at the concrete 13-column frame. -/
theorem C7_out_of_range_is_soft_witness : processData [df13] = none :=
  (C7_out_of_range_is_soft [df13] (by decide)).1

/-- C7 as literally stated is false: on a 13-column merged table (projection
indices 15, 17, 23 out of range) the run does not transition to a failed
state — the transform result is `None`, the publisher is skipped, and the
sink trace is exactly the trace of a run whose filter matched zero rows. -/
theorem C7_counterexample :
    processData [df13] = none ∧
    update_google_sheet_with_dataframe (processData [df13]) = [] ∧
    update_google_sheet_with_dataframe (processData [df13])
      = update_google_sheet_with_dataframe (processData [df24other]) := by
  decide

/-- C8: whenever the transform result is absent or has zero records, the
publisher makes no sink call at all — no clear and no write — leaving the
prior contents of the destination sheet untouched. -/
theorem C8_empty_skips_sink (B : Nat) (rt : Option ResultTable)
    (h : rt = none ∨ ∃ t, rt = some t ∧ t.rows = []) :
    updateGoogleSheetWith B rt = [] := by
  rcases h with rfl | ⟨t, rfl, ht⟩
  · rfl
  · simp [updateGoogleSheetWith, ht]

/-- Witness for C8 with an absent transform result. -/
theorem C8_empty_skips_sink_witness :
    updateGoogleSheetWith chunk_size none = [] :=
  C8_empty_skips_sink chunk_size none (Or.inl rfl)

/-- C9: for every merged table and facility value, filtering retains exactly
the rows whose cell at the facility-code column (index 12) equals the value,
so the filtered row count never exceeds the input row count; an empty table
and a table with zero matching rows both yield an empty result, not an
error. -/
theorem C9_filter_monotone (df : DataFrame) (fac : String) :
    (filterTable df fac).rows.length ≤ df.rows.length ∧
    (∀ r ∈ (filterTable df fac).rows, r.getD facilityCol none = some fac) ∧
    (df.rows = [] → (filterTable df fac).rows = []) ∧
    ((∀ r ∈ df.rows, r.getD facilityCol none ≠ some fac) →
      (filterTable df fac).rows = []) := by
  unfold filterTable
  by_cases h : df.rows.isEmpty
  · rw [if_pos h]
    rw [List.isEmpty_iff] at h
    refine ⟨Nat.le_refl _, ?_, fun _ => h, fun _ => h⟩
    intro r hr
    rw [h] at hr
    cases hr
  · rw [if_neg h]
    refine ⟨List.length_filter_le _ _, ?_, ?_, ?_⟩
    · intro r hr
      have := (List.mem_filter.mp hr).2
      exact of_decide_eq_true this
    · intro h0
      rw [List.isEmpty_iff] at h
      exact absurd h0 h
    · intro hnone
      apply List.filter_eq_nil_iff.mpr
      intro r hr
      simp only [decide_eq_true_eq]
      exact hnone r hr

/-- Witness for C9: a frame with no cell matching facility F filters to
the empty row set. -/
theorem C9_filter_monotone_witness : (filterTable dfA "F").rows = [] :=
  (C9_filter_monotone dfA "F").2.2.2 (by decide)

/-- C10: a projected record whose Key cell is missing contributes to no
aggregated record and to no Quantity: dropping such records first changes
nothing, the Quantities sum to the number of present-Key records only, and
every published key traces back to a present Key cell of some projected
record. -/
theorem C10_missing_key_dropped (p : List (List Cell)) :
    transformRows p = transformRows (p.filter (fun r => (keyOf r).isSome)) ∧
    ((transformRows p).map (fun a => a.quantidade)).sum
      = (p.filter (fun r => (keyOf r).isSome)).length ∧
    (∀ a ∈ transformRows p, some a.chave ∈ p.map keyOf) := by
  refine ⟨(transformRows_filter_isSome p).symm, ?_, ?_⟩
  · rw [sum_quantities, keysOf_length]
  · intro a ha
    obtain ⟨k, hk, rfl⟩ := (mem_transformRows p a).mp ha
    have hmem : k ∈ keysOf p := List.mem_dedup.mp hk
    obtain ⟨r, hr, hkr⟩ := List.mem_filterMap.mp hmem
    exact List.mem_map.mpr ⟨r, hr, hkr⟩

/-- Witness for C10 at a concrete one-record input. -/
theorem C10_missing_key_dropped_witness :
    some (aggRecordFor pW "K1").chave ∈ pW.map keyOf :=
  (C10_missing_key_dropped pW).2.2 (aggRecordFor pW "K1") (by decide)

end PackedSP5
